import Mathlib

/-!
Shallow embedding of `graphrest.py` (class `GraphSession`): a stateful
OAuth 2.0 Authorization Code Grant client.  Python dictionaries
`self.config` and `self.state` become Lean structures; `time.time()`
becomes an explicit integer parameter `now` (whole seconds; Python's
`time.time()` returns a float, but no claim here depends on sub-second
fractions, and at whole-second granularity Python's `int()` truncation
is the identity); the `state.json` file, the
issued HTTP redirects, the printed scope warnings and the queued network
responses become an explicit `World` record threaded through every
operation; Python exceptions become `Except`, with the error value
carrying the mutated state at raise time (a Python object survives an
exception).  Recursion through `token_save -> logout -> state_manager
-> token_validation -> token_refresh -> token_save` is bounded by an
explicit fuel parameter; running out of fuel raises the artificial
`SaveExc.noFuel`, never confused with a real Python exception.
-/

/-- Python truthiness of an optional string: `None` and `''` are falsy,
every other string is truthy. -/
def py_truthy : Option String → Bool
  | none => false
  | some s => !(s == "")

/-- The `self.config` dictionary after `__init__` merged defaults and
overrides (graphrest.py lines 40-47).  All keys are always present. -/
structure Config where
  client_id : String
  client_secret : String
  redirect_uri : String
  scopes : List String
  cache_state : Bool
  resource : String
  api_version : String
  authority_url : String
  auth_endpoint : String
  token_endpoint : String
  refresh_enable : Bool
deriving DecidableEq, Repr

/-- The `self.state` dictionary (graphrest.py lines 148-150): the six
session-state fields of `initialized_state`. -/
structure SessionState where
  access_token : Option String
  refresh_token : Option String
  token_expires_at : ℤ
  authorization_url : String
  token_scope : String
  loggedin : Bool
deriving DecidableEq, Repr

/-- `initialized_state` (graphrest.py lines 148-150): the default
logged-out shape. -/
def init_state : SessionState :=
  { access_token := none, refresh_token := none, token_expires_at := 0,
    authorization_url := "", token_scope := "", loggedin := false }

/-- Values read from the external `config` module (`config.RESOURCE` etc.,
graphrest.py lines 42-45); the module itself is outside this repository, so
its values are left abstract parameters. -/
structure ExternalConfig where
  RESOURCE : String
  API_VERSION : String
  AUTHORITY_URL : String
  AUTH_ENDPOINT : String
  TOKEN_ENDPOINT : String
deriving DecidableEq, Repr

/-- The keyword arguments a caller may pass to `GraphSession(**kwargs)`;
`none` means the key is not passed, so the default survives. -/
structure Overrides where
  client_id : Option String := none
  client_secret : Option String := none
  redirect_uri : Option String := none
  scopes : Option (List String) := none
  cache_state : Option Bool := none
  resource : Option String := none
  api_version : Option String := none
  authority_url : Option String := none
  auth_endpoint : Option String := none
  token_endpoint : Option String := none
  refresh_enable : Option Bool := none
deriving Repr

/-- The default `self.config` dictionary (graphrest.py lines 40-46). -/
def default_config (ext : ExternalConfig) : Config :=
  { client_id := "", client_secret := "", redirect_uri := "",
    scopes := [], cache_state := false,
    resource := ext.RESOURCE, api_version := ext.API_VERSION,
    authority_url := ext.AUTHORITY_URL,
    auth_endpoint := ext.AUTHORITY_URL ++ ext.AUTH_ENDPOINT,
    token_endpoint := ext.AUTHORITY_URL ++ ext.TOKEN_ENDPOINT,
    refresh_enable := true }

/-- `self.config.update(kwargs.items())` (graphrest.py line 47). -/
def merged_config (ext : ExternalConfig) (ov : Overrides) : Config :=
  let d := default_config ext
  { client_id := ov.client_id.getD d.client_id,
    client_secret := ov.client_secret.getD d.client_secret,
    redirect_uri := ov.redirect_uri.getD d.redirect_uri,
    scopes := ov.scopes.getD d.scopes,
    cache_state := ov.cache_state.getD d.cache_state,
    resource := ov.resource.getD d.resource,
    api_version := ov.api_version.getD d.api_version,
    authority_url := ov.authority_url.getD d.authority_url,
    auth_endpoint := ov.auth_endpoint.getD d.auth_endpoint,
    token_endpoint := ov.token_endpoint.getD d.token_endpoint,
    refresh_enable := ov.refresh_enable.getD d.refresh_enable }

/-- The offline_access reconciliation in `__init__` (graphrest.py lines
54-63).  Note Python `list.remove` deletes only the FIRST occurrence,
which `List.erase` mirrors. -/
def reconcile_scopes (refresh_enable : Bool) (scopes : List String) : List String :=
  if refresh_enable then
    (if "offline_access" ∈ scopes then scopes else scopes ++ ["offline_access"])
  else
    (if "offline_access" ∈ scopes then scopes.erase "offline_access" else scopes)

/-- The `self.config` dictionary after `__init__` finished (merge at line
47, then scope reconciliation at lines 54-63; the reconciliation reads and
writes only `config`, independent of the `state_manager('init')` call in
between). -/
def init_config (ext : ExternalConfig) (ov : Overrides) : Config :=
  let c := merged_config ext ov
  { c with scopes := reconcile_scopes c.refresh_enable c.scopes }

/-- `token_seconds` (graphrest.py lines 204-209). -/
def token_seconds (st : SessionState) (now : ℤ) : ℤ :=
  if py_truthy st.access_token = false ∨ st.token_expires_at ≤ now then 0
  else st.token_expires_at - now

/-- Parsed JSON body of a token-endpoint response (`response.json()`,
graphrest.py line 190); `none` models an absent key.  `expires_in` is kept
as the integer that `int(jsondata['expires_in'])` produces. -/
structure TokenBody where
  access_token : Option String := none
  scope : Option String := none
  expires_in : Option Int := none
  refresh_token : Option String := none
deriving DecidableEq, Repr

/-- A `requests` response: HTTP-success flag plus parsed JSON body.  Note
`requests.models.Response.__bool__` returns `self.ok`, so the Python test
`token_response and token_response.ok` is just `ok`. -/
structure HttpResponse where
  ok : Bool
  body : TokenBody
deriving DecidableEq, Repr

/-- The observable outside world: the parsed contents of `state.json`
(`none` = file absent; the only writer stores exactly the six
session-state fields, graphrest.py lines 161-164), the redirect targets
handed to `bottle.redirect` in order, the number of scope-mismatch
warnings printed, and the queue of responses the network will return to
successive `requests.post` calls. -/
structure World where
  fs : Option SessionState := none
  redirects : List String := []
  warnings : Nat := 0
  pending : List HttpResponse := []
deriving DecidableEq, Repr

/-- Exceptions the token-layer operations can raise: Python `KeyError`,
a transport failure (no queued response), and the artificial
fuel-exhaustion marker of the embedding. -/
inductive SaveExc where
  | keyError (key : String)
  | network
  | noFuel
deriving DecidableEq, Repr

/-- The case-insensitive set of scopes in a space-delimited scope string;
`scopes_returned` in `verify_scopes` (graphrest.py line 226).  Python
`s.split(' ')` and `String.splitOn " "` agree, including `"".split(' ')
== ['']`. -/
def returned_scope_set (s : String) : Finset String :=
  ((s.splitOn " ").map String.toLower).toFinset

/-- `scopes_expected` in `verify_scopes` (graphrest.py lines 227-228):
lower-cased configured scopes, dropping those whose lower-case form is
`offline_access`. -/
def vs_expected (cfg : Config) : Finset String :=
  ((cfg.scopes.filter (fun s => !(s.toLower == "offline_access"))).map String.toLower).toFinset

/-- The spec's wording of the comparison set: the case-insensitive set of
configured scopes with `offline_access` removed. -/
def expected_scope_set (scopes : List String) : Finset String :=
  ((scopes.map String.toLower).toFinset).erase "offline_access"

/-- `verify_scopes` (graphrest.py lines 220-231): store the raw returned
scope string, compare the two case-insensitive sets, and on mismatch only
print a warning (modelled as `warnings + 1`). -/
def verify_scopes (cfg : Config) (token_scopes : String) (st : SessionState)
    (w : World) : SessionState × World :=
  let st' := { st with token_scope := token_scopes }
  if vs_expected cfg ≠ returned_scope_set token_scopes then
    (st', { w with warnings := w.warnings + 1 })
  else
    (st', w)

/-- `state_manager('save')` (graphrest.py lines 161-164): a no-op unless
`cache_state`; otherwise overwrite `state.json` with the dictionary
`{key: self.state[key] for key in initialized_state}`, i.e. all six
session-state fields — including the transient `authorization_url`,
since `initialized_state` has that key. -/
def state_manager_save (cfg : Config) (st : SessionState) (w : World) : World :=
  if cfg.cache_state then { w with fs := some st } else w

mutual

/-- `token_save` (graphrest.py lines 179-202).  Returns the Python return
value (`True`/`False`) with the mutated state and world, or the exception
if one escapes. -/
def token_save (fuel : Nat) (cfg : Config) (resp : HttpResponse)
    (st : SessionState) (now : ℤ) (w : World) :
    Except (SaveExc × SessionState × World) (Bool × SessionState × World) :=
  match fuel with
  | 0 => .error (.noFuel, st, w)
  | f + 1 =>
    match resp.body.access_token with
    | none =>
      -- line 191-193: no access_token -> self.logout(redirect_to=None); return False
      match logout f cfg none now w with
      | .error e => .error e
      | .ok (st', w') => .ok (false, st', w')
    | some tok =>
      -- line 195: jsondata['scope'] raises KeyError before any mutation
      match resp.body.scope with
      | none => .error (.keyError "scope", st, w)
      | some sc =>
        let sw := verify_scopes cfg sc st w
        let st2 := { sw.1 with access_token := some tok, loggedin := true }
        -- line 200: jsondata['expires_in'] raises KeyError after the
        -- mutations of lines 195-197 already happened
        match resp.body.expires_in with
        | none => .error (.keyError "expires_in", st2, sw.2)
        | some ei =>
          .ok (true,
               { st2 with token_expires_at := now + ei,
                          refresh_token := resp.body.refresh_token },
               sw.2)

/-- `logout` (graphrest.py lines 105-113): re-init the state, then
redirect only when `redirect_to` is truthy. -/
def logout (fuel : Nat) (cfg : Config) (redirect_to : Option String)
    (now : ℤ) (w : World) :
    Except (SaveExc × SessionState × World) (SessionState × World) :=
  match fuel with
  | 0 => .error (.noFuel, init_state, w)
  | f + 1 =>
    match state_manager_init f cfg now w with
    | .error e => .error e
    | .ok (st', w') =>
      match redirect_to with
      | some r =>
        if r = "" then .ok (st', w')
        else .ok (st', { w' with redirects := w'.redirects ++ [r] })
      | none => .ok (st', w')

/-- `state_manager('init')` (graphrest.py lines 153-160): reset to the
default shape; with caching and an existing `state.json`, load it over
the defaults and run `token_validation`; with caching off, delete a stale
`state.json`. -/
def state_manager_init (fuel : Nat) (cfg : Config) (now : ℤ) (w : World) :
    Except (SaveExc × SessionState × World) (SessionState × World) :=
  match fuel with
  | 0 => .error (.noFuel, init_state, w)
  | f + 1 =>
    if cfg.cache_state then
      match w.fs with
      | some rec => token_validation f cfg 5 rec now w
      | none => .ok (init_state, w)
    else
      match w.fs with
      | some _ => .ok (init_state, { w with fs := none })
      | none => .ok (init_state, w)

/-- `token_validation` (graphrest.py lines 211-218), default
`nseconds=5`. -/
def token_validation (fuel : Nat) (cfg : Config) (nseconds : ℤ)
    (st : SessionState) (now : ℤ) (w : World) :
    Except (SaveExc × SessionState × World) (SessionState × World) :=
  match fuel with
  | 0 => .error (.noFuel, st, w)
  | f + 1 =>
    if token_seconds st now < nseconds ∧ cfg.refresh_enable then
      token_refresh f cfg st now w
    else .ok (st, w)

/-- `token_refresh` (graphrest.py lines 166-177): no-op unless refresh is
enabled; otherwise POST to the token endpoint (take the next queued
response) and delegate to `token_save`, discarding its boolean. -/
def token_refresh (fuel : Nat) (cfg : Config) (st : SessionState)
    (now : ℤ) (w : World) :
    Except (SaveExc × SessionState × World) (SessionState × World) :=
  match fuel with
  | 0 => .error (.noFuel, st, w)
  | f + 1 =>
    if cfg.refresh_enable = false then .ok (st, w)
    else
      match w.pending with
      | [] => .error (.network, st, w)
      | resp :: rest =>
        match token_save f cfg resp st now { w with pending := rest } with
        | .error e => .error e
        | .ok (_, st', w') => .ok (st', w')

end

instance (ε α : Type) [DecidableEq ε] [DecidableEq α] : DecidableEq (Except ε α) :=
  fun x y =>
    match x, y with
    | .error a, .error b =>
      if h : a = b then .isTrue (by rw [h]) else .isFalse (by intro hc; cases hc; exact h rfl)
    | .error _, .ok _ => .isFalse (by intro hc; cases hc)
    | .ok _, .error _ => .isFalse (by intro hc; cases hc)
    | .ok a, .ok b =>
      if h : a = b then .isTrue (by rw [h]) else .isFalse (by intro hc; cases hc; exact h rfl)

/-- The part of a `GraphSession` object the redirect handler touches:
the `self.authstate` slot and the `self.state` dictionary. -/
structure GSess where
  authstate : String
  state : SessionState
deriving DecidableEq, Repr

/-- Exceptions escaping `redirect_uri_handler`: the `STATE MISMATCH`
`raise` of graphrest.py lines 124-125, or an exception bubbling out of
`token_save`. -/
inductive HandlerExc where
  | stateMismatch (sent received : String)
  | save (e : SaveExc)
deriving DecidableEq, Repr

/-- `redirect_uri_handler` (graphrest.py lines 115-138).
`query_state`/`query_code` are `bottle.request.query.state`/`.code`; the
token-endpoint POST of lines 128-133 consumes the next queued network
response; `token_response and token_response.ok` is just `resp.ok` since
a `requests` response is truthy exactly when `ok`; the final
`bottle.redirect(redirect_to)` is recorded in the world. -/
def redirect_uri_handler (fuel : Nat) (cfg : Config) (g : GSess)
    (query_state query_code : String) (redirect_to : String) (now : ℤ)
    (w : World) :
    Except (HandlerExc × GSess × World) (GSess × World) :=
  match fuel with
  | 0 => .error (.save .noFuel, g, w)
  | f + 1 =>
    if g.authstate ≠ query_state then
      -- lines 123-125: raise before authstate is touched
      .error (.stateMismatch g.authstate query_state, g, w)
    else
      -- line 126: clear state to prevent re-use
      let g1 : GSess := { g with authstate := "" }
      match w.pending with
      | [] => .error (.save .network, g1, w)
      | resp :: rest =>
        match token_save f cfg resp g1.state now { w with pending := rest } with
        | .error (e, st', w') => .error (.save e, { g1 with state := st' }, w')
        | .ok (_saved, st', w') =>
          -- line 136: persistence is gated on response truthiness/ok,
          -- not on token_save's return value
          let w2 := if resp.ok then state_manager_save cfg st' w' else w'
          .ok ({ g1 with state := st' },
               { w2 with redirects := w2.redirects ++ [redirect_to] })

/-- Does a handler outcome consist in the state-mismatch `raise`? -/
def isStateMismatchRes :
    Except (HandlerExc × GSess × World) (GSess × World) → Bool
  | .error (.stateMismatch _ _, _, _) => true
  | _ => false

/-! ## Fixtures for the concrete theorems -/

/-- Arbitrary concrete external configuration module. -/
def ext0 : ExternalConfig := ⟨"", "", "", "", ""⟩

/-- A session whose access token is the empty string: Python-falsy, yet
not absent. -/
def st_c6 : SessionState :=
  { access_token := some "", refresh_token := none, token_expires_at := 100,
    authorization_url := "", token_scope := "", loggedin := true }

/-- A session with a nonempty token expiring at 10. -/
def st_c6w : SessionState :=
  { access_token := some "tok", refresh_token := none, token_expires_at := 10,
    authorization_url := "", token_scope := "", loggedin := true }

/-- Arbitrary concrete configuration (all defaults). -/
def cfg_basic : Config := default_config ext0

/-- Concrete configuration with caching enabled. -/
def cfg_cache : Config := { default_config ext0 with cache_state := true }

/-- A logged-in state with a nonempty transient authorization_url. -/
def st_c4 : SessionState :=
  { init_state with authorization_url := "https://auth.example/x",
                    access_token := some "tok", loggedin := true }

/-- A session awaiting a callback, with authstate "A". -/
def g_c1 : GSess := ⟨"A", init_state⟩

/-- HTTP-success response whose body lacks `access_token`. -/
def resp_ok_empty : HttpResponse := ⟨true, {}⟩

/-- World with exactly that response queued and no state file. -/
def w_c5 : World := { pending := [resp_ok_empty] }

/-- A persisted logged-in record whose token is still valid for a long
time. -/
def rec_cached : SessionState :=
  { access_token := some "cached-tok", refresh_token := some "r",
    token_expires_at := 1000, authorization_url := "", token_scope := "s",
    loggedin := true }

/-- World whose `state.json` holds that logged-in record. -/
def w_cached : World := { fs := some rec_cached }

/-! ## C7 — offline_access reconciliation at construction -/

/-- C7 counterexample: with `refresh_enable=false` and caller scopes
`['offline_access', 'offline_access']`, the constructed configuration
still contains `offline_access`, because Python `list.remove` deletes
only the first occurrence — refuting "do not contain 'offline_access'
when refresh_enable is false, regardless of the caller's scopes list". -/
theorem C7_counterexample :
    "offline_access" ∈ (init_config ext0
      { scopes := some ["offline_access", "offline_access"],
        refresh_enable := some false }).scopes := by decide

/-- C7 (amended): after construction, `offline_access` is in the
configured scopes whenever `refresh_enable` is true; and when
`refresh_enable` is false it is absent provided the caller's scopes list
contained at most one occurrence (only the first occurrence is
removed). -/
theorem C7_amended (ext : ExternalConfig) (ov : Overrides) :
    (ov.refresh_enable.getD true = true →
      "offline_access" ∈ (init_config ext ov).scopes) ∧
    (ov.refresh_enable.getD true = false →
      (ov.scopes.getD []).count "offline_access" ≤ 1 →
      "offline_access" ∉ (init_config ext ov).scopes) := by
  constructor
  · intro hr
    simp only [init_config, merged_config, default_config, reconcile_scopes, hr]
    by_cases hm : "offline_access" ∈ ov.scopes.getD [] <;> simp [hm]
  · intro hr hc
    simp only [init_config, merged_config, default_config, reconcile_scopes, hr]
    by_cases hm : "offline_access" ∈ ov.scopes.getD []
    · simp only [hm, if_true, Bool.false_eq_true, if_false]
      have h1 := List.count_erase_self "offline_access" (ov.scopes.getD [])
      have h2 : ((ov.scopes.getD []).erase "offline_access").count "offline_access" = 0 := by
        omega
      exact List.count_eq_zero.mp h2
    · simp [hm]

/-- Witness for `C7_amended`: a caller passing `scopes=['a']` and
`refresh_enable=false` ends up without `offline_access`. -/
theorem C7_amended_witness :
    "offline_access" ∉ (init_config ext0
      { scopes := some ["a"], refresh_enable := some false }).scopes :=
  (C7_amended ext0 { scopes := some ["a"], refresh_enable := some false }).2
    (by decide) (by decide)

/-! ## C6 — token_seconds -/

/-- C6 counterexample: with `access_token = some ""` (present but empty)
and the expiry 100 seconds in the future, `token_seconds` returns 0, not
the 100 remaining seconds the claim's "otherwise" branch demands — the
code tests Python truthiness, under which the empty string counts like an
absent token. -/
theorem C6_counterexample :
    st_c6.access_token ≠ none ∧ ¬ st_c6.token_expires_at ≤ (0 : ℤ) ∧
    token_seconds st_c6 0 = 0 ∧
    token_seconds st_c6 0 ≠ st_c6.token_expires_at - 0 := by decide

/-- C6 (amended): `token_seconds` returns 0 when the access token is
absent or empty, or when the current time is at or after
`token_expires_at`; otherwise it returns `token_expires_at - now`, the
integer number of seconds remaining; and it is never negative. -/
theorem C6_amended (st : SessionState) (now : ℤ) :
    ((st.access_token = none ∨ st.access_token = some "") →
      token_seconds st now = 0) ∧
    (st.token_expires_at ≤ now → token_seconds st now = 0) ∧
    ((∃ s, st.access_token = some s ∧ s ≠ "") →
      now < st.token_expires_at →
      token_seconds st now = st.token_expires_at - now) ∧
    0 ≤ token_seconds st now := by
  refine ⟨?_, ?_, ?_, ?_⟩
  · rintro (h | h) <;> simp [token_seconds, py_truthy, h]
  · intro h
    simp [token_seconds, h]
  · rintro ⟨s, hs, hne⟩ hlt
    have ht : py_truthy st.access_token = true := by simp [py_truthy, hs, hne]
    have hcond : ¬(py_truthy st.access_token = false ∨ st.token_expires_at ≤ now) := by
      rintro (h1 | h2)
      · rw [ht] at h1
        cases h1
      · exact absurd hlt (not_lt.mpr h2)
    simp only [token_seconds, if_neg hcond]
  · simp only [token_seconds]
    split
    · exact le_refl 0
    · rename_i hcond
      push_neg at hcond
      have h2 : now < st.token_expires_at := hcond.2
      linarith

/-- Witness for `C6_amended`: at `now = 3` with expiry 10 the remaining
time is 7 seconds. -/
theorem C6_amended_witness :
    token_seconds st_c6w 3 = (10 : ℤ) - 3 ∧
    token_seconds st_c6w 3 = 7 :=
  ⟨(C6_amended st_c6w 3).2.2.1 ⟨"tok", rfl, by decide⟩ (by decide), by decide⟩

/-! ## C8 — verify_scopes -/

/-- The comparison set the code computes (lower-case then filter) equals
the spec's wording (lower-case set with `offline_access` removed). -/
theorem vs_expected_eq_spec (cfg : Config) :
    vs_expected cfg = expected_scope_set cfg.scopes := by
  ext x
  simp only [vs_expected, expected_scope_set, List.mem_toFinset, List.mem_map,
    List.mem_filter, Finset.mem_erase, Bool.not_eq_true', beq_eq_false_iff_ne,
    ne_eq]
  constructor
  · rintro ⟨a, ⟨ha, hne⟩, rfl⟩
    exact ⟨hne, a, ha, rfl⟩
  · rintro ⟨hx, a, ha, rfl⟩
    exact ⟨a, ⟨ha, hx⟩, rfl⟩

/-- C8: `verify_scopes` stores the raw returned scope string in
`token_scope`, changes nothing else in the session state (in particular
neither `loggedin` nor `access_token`), and emits exactly one diagnostic
iff the case-insensitive set of returned scopes differs from the
case-insensitive set of configured scopes with `offline_access`
removed. -/
theorem C8_verify_scopes (cfg : Config) (s : String) (st : SessionState)
    (w : World) :
    verify_scopes cfg s st w =
      ({ st with token_scope := s },
       { w with warnings := w.warnings +
          (if expected_scope_set cfg.scopes ≠ returned_scope_set s
           then 1 else 0) }) ∧
    (verify_scopes cfg s st w).1.loggedin = st.loggedin ∧
    (verify_scopes cfg s st w).1.access_token = st.access_token := by
  have he := vs_expected_eq_spec cfg
  refine ⟨?_, ?_, ?_⟩
  · unfold verify_scopes
    rw [he]
    by_cases h : expected_scope_set cfg.scopes ≠ returned_scope_set s
    · rw [if_pos h, if_pos h]
    · rw [if_neg h, if_neg h]
      simp
  · unfold verify_scopes
    split <;> rfl
  · unfold verify_scopes
    split <;> rfl

/-! ## C10 — token_save with access_token but no scope -/

/-- C10: for every token response whose parsed body contains
`access_token` but no `scope` field, `token_save` raises `KeyError`
(`jsondata['scope']`, graphrest.py line 195) before mutating any
session-state field: the error carries the unchanged state and world, and
no boolean is returned. -/
theorem C10_token_save_scope_keyerror (f : Nat) (cfg : Config) (ok : Bool)
    (t : String) (ei : Option Int) (rt : Option String)
    (st : SessionState) (now : ℤ) (w : World) :
    token_save (f + 1) cfg
        ⟨ok, { access_token := some t, scope := none,
               expires_in := ei, refresh_token := rt }⟩ st now w =
      .error (.keyError "scope", st, w) := rfl

/-! ## C3 — token_save success path -/

/-- C3 counterexample: a parsed body containing `access_token` but no
`scope` key makes `token_save` raise `KeyError('scope')` instead of
returning success, so "for every token response whose parsed body
contains an 'access_token' field ... returns success" is false. -/
theorem C3_counterexample :
    token_save 5 cfg_basic
      ⟨true, { access_token := some "tok", expires_in := some 3600 }⟩
      init_state 0 {} =
      .error (.keyError "scope", init_state, {}) := by decide

/-- C3 (amended): for every token response whose parsed body contains
`access_token`, `scope` and `expires_in` fields, `token_save` stores the
raw scope string (emitting a diagnostic iff the case-insensitive scope
sets differ), sets `access_token` to the returned value, sets
`loggedin = true`, sets `token_expires_at = now + expires_in`, sets
`refresh_token` to the response's value or clears it to absent, and
returns success.  (The unguarded `jsondata['scope']` and
`jsondata['expires_in']` lookups force the two extra presence
hypotheses.) -/
theorem C3_amended (f : Nat) (cfg : Config) (ok : Bool) (t sc : String)
    (ei : Int) (rt : Option String) (st : SessionState) (now : ℤ)
    (w : World) :
    token_save (f + 1) cfg
        ⟨ok, { access_token := some t, scope := some sc,
               expires_in := some ei, refresh_token := rt }⟩ st now w =
      .ok (true,
           { st with token_scope := sc, access_token := some t,
                     loggedin := true, token_expires_at := now + ei,
                     refresh_token := rt },
           { w with warnings := w.warnings +
              (if expected_scope_set cfg.scopes ≠ returned_scope_set sc
               then 1 else 0) }) := by
  show Except.ok (true, _, (verify_scopes cfg sc st w).2) = _
  unfold verify_scopes
  rw [vs_expected_eq_spec]
  by_cases h : expected_scope_set cfg.scopes ≠ returned_scope_set sc
  · rw [if_pos h, if_pos h]
  · rw [if_neg h, if_neg h]
    simp

/-! ## C4 — state_manager('save') -/

/-- C4 counterexample: with caching enabled, the persisted record still
contains the transient `authorization_url` (here a nonempty URL), because
the dict comprehension of graphrest.py line 164 iterates over all six
keys of `initialized_state` — `authorization_url` is not excluded, so
the claim's "excluding the transient authorization_url" is false. -/
theorem C4_counterexample :
    (state_manager_save cfg_cache st_c4 {}).fs = some st_c4 ∧
    st_c4.authorization_url = "https://auth.example/x" := by decide

/-- C4 (amended): persist is a no-op when `cache_state` is false; when
`cache_state` is true it overwrites any prior persisted content with
exactly the six current session-state fields — `access_token`,
`refresh_token`, `token_expires_at`, `token_scope`, `loggedin` AND the
transient `authorization_url` — and touches nothing else in the
world. -/
theorem C4_amended (cfg : Config) (st : SessionState) (w : World) :
    (cfg.cache_state = false → state_manager_save cfg st w = w) ∧
    (cfg.cache_state = true →
      state_manager_save cfg st w = { w with fs := some st }) := by
  constructor <;> intro h <;> simp [state_manager_save, h]

/-- Witness for `C4_amended`: with caching on, prior persisted content is
overwritten by the full current state. -/
theorem C4_amended_witness :
    state_manager_save cfg_cache st_c4 { fs := some init_state } =
      { fs := some st_c4 } :=
  (C4_amended cfg_cache st_c4 { fs := some init_state }).2 rfl

/-! ## C1 — redirect_uri_handler state mismatch -/

/-- C1 counterexample: a callback with state "B" against stored authstate
"A" raises the state-mismatch exception with the session UNCHANGED — the
`raise` of graphrest.py lines 124-125 happens before line 126 clears
`authstate`, so the authstate is NOT consumed, and a second callback
carrying the original correct state "A" passes the state check instead of
failing. -/
theorem C1_counterexample :
    redirect_uri_handler 4 cfg_basic g_c1 "B" "c" "/" 0 {} =
      .error (.stateMismatch "A" "B", g_c1, {}) ∧
    g_c1.authstate = "A" ∧
    isStateMismatchRes
      (redirect_uri_handler 4 cfg_basic g_c1 "A" "c" "/" 0 {}) = false := by
  decide

/-- Once the state check passes (received state equals the stored
authstate), no execution path of the handler raises the state-mismatch
exception: every later failure is a wrapped `token_save`/transport
exception. -/
theorem no_mismatch_when_state_matches (f : Nat) (cfg : Config) (g : GSess)
    (qc rt : String) (now : ℤ) (w : World) :
    isStateMismatchRes
      (redirect_uri_handler f cfg g g.authstate qc rt now w) = false := by
  obtain ⟨a, st⟩ := g
  match f with
  | 0 => rfl
  | f + 1 =>
    have hcond : ¬((GSess.mk a st).authstate ≠ a) := by simp
    simp only [redirect_uri_handler, if_neg hcond]
    cases hp : w.pending with
    | nil => rfl
    | cons resp rest =>
      cases hts : token_save f cfg resp st now { w with pending := rest } with
      | error e =>
        obtain ⟨e1, st', w'⟩ := e
        simp [isStateMismatchRes, hts]
      | ok v =>
        simp [isStateMismatchRes, hts]

/-- C1 (amended): for every session with a received state different from
the stored authstate, the handler fails with the state-mismatch
exception, saves no token and touches neither session nor world — in
particular `authstate` is NOT cleared — so a second callback carrying the
original correct state passes the state check (it can never raise the
state-mismatch exception). -/
theorem C1_amended (f : Nat) (cfg : Config) (g : GSess) (qs qc rt : String)
    (now : ℤ) (w : World) (h : g.authstate ≠ qs) :
    redirect_uri_handler (f + 1) cfg g qs qc rt now w =
      .error (.stateMismatch g.authstate qs, g, w) ∧
    ∀ (f' : Nat) (qc' rt' : String) (now' : ℤ) (w' : World),
      isStateMismatchRes
        (redirect_uri_handler f' cfg g g.authstate qc' rt' now' w') = false := by
  refine ⟨by simp [redirect_uri_handler, h], ?_⟩
  intro f' qc' rt' now' w'
  exact no_mismatch_when_state_matches f' cfg g qc' rt' now' w'

/-- Witness for `C1_amended`: authstate "A", received state "B". -/
theorem C1_amended_witness :
    redirect_uri_handler 4 cfg_basic g_c1 "B" "x" "/" 0 {} =
      .error (.stateMismatch "A" "B", g_c1, {}) :=
  (C1_amended 3 cfg_basic g_c1 "B" "x" "/" 0 {} (by decide)).1

/-! ## C5 — persist/redirect after a state-check-passing callback -/

/-- C5 counterexample: with caching enabled, a state-check-passing
callback whose token response is HTTP-ok (status < 400) but lacks
`access_token`: `token_save` returns failure (False), yet
`state_manager('save')` still runs and persists the reset state — line
136 gates persistence on `token_response.ok`, not on `token_save`'s
return value — refuting "persisted if and only if the delegated save
routine succeeds". -/
theorem C5_counterexample :
    token_save 8 cfg_cache resp_ok_empty init_state 0 {} =
      .ok (false, init_state, {}) ∧
    redirect_uri_handler 9 cfg_cache ⟨"S", init_state⟩ "S" "c" "/" 0 w_c5 =
      .ok (⟨"", init_state⟩,
           { fs := some init_state, redirects := ["/"] }) := by decide

/-- C5 (amended): when the state check passes, the handler consumes the
next queued response and delegates to `token_save`; if `token_save`
returns (success or failure alike), the state is persisted iff the
response is truthy-and-ok (HTTP success) — a condition that need not
coincide with `token_save`'s returned success — and the external HTTP
layer is always signalled to redirect to `redirect_to`. -/
theorem C5_amended (f : Nat) (cfg : Config) (st : SessionState)
    (qs qc rt : String) (now : ℤ) (w : World) (resp : HttpResponse)
    (rest : List HttpResponse) (b : Bool) (st' : SessionState) (w' : World)
    (hp : w.pending = resp :: rest)
    (hts : token_save f cfg resp st now { w with pending := rest } =
      .ok (b, st', w')) :
    redirect_uri_handler (f + 1) cfg ⟨qs, st⟩ qs qc rt now w =
      .ok (⟨"", st'⟩,
           { (if resp.ok then state_manager_save cfg st' w' else w') with
              redirects :=
                (if resp.ok then state_manager_save cfg st' w' else w').redirects
                  ++ [rt] }) := by
  have hcond : ¬((GSess.mk qs st).authstate ≠ qs) := by simp
  simp only [redirect_uri_handler, if_neg hcond, hp, hts]

/-- Witness for `C5_amended`: the concrete scenario of the
counterexample, reached through the amended theorem. -/
theorem C5_amended_witness :
    redirect_uri_handler 9 cfg_cache ⟨"S", init_state⟩ "S" "q" "/" 0 w_c5 =
      .ok (⟨"", init_state⟩,
           { fs := some init_state, redirects := ["/"] }) :=
  (C5_amended 8 cfg_cache init_state "S" "q" "/" 0 w_c5 resp_ok_empty []
    false init_state { pending := [] } (by decide) (by decide)).trans (by decide)

/-! ## C2 and C9 — logout / failed save with a cached session -/

/-- C2 (code bug): a token response without `access_token` makes
`token_save` return failure with no redirect, but with caching enabled
and a persisted logged-in copy on disk the internal
`logout(redirect_to=None)` RELOADS `state.json` (graphrest.py lines
155-157), so the session ends logged in (`loggedin = true`), not in the
logged-out default shape — contradicting logout's own docstring ("just
clears the current logged-in status"). -/
theorem C2_code_eval :
    token_save 9 cfg_cache ⟨true, {}⟩ init_state 0 w_cached =
      .ok (false, rec_cached, w_cached) ∧
    rec_cached.loggedin = true ∧ rec_cached ≠ init_state ∧
    w_cached.redirects = [] := by decide

/-- C9 (code bug): `logout(redirect_to=None)` with caching enabled and a
persisted logged-in copy does not return the session to the default
logged-out shape: `state_manager('init')` reloads `state.json`, so the
call (and any repetition of it, the world being unchanged) yields the
cached logged-in state, and no redirect is performed. -/
theorem C9_code_eval :
    logout 9 cfg_cache none 0 w_cached = .ok (rec_cached, w_cached) ∧
    rec_cached ≠ init_state ∧ rec_cached.loggedin = true ∧
    w_cached.redirects = [] := by decide
